import Mathlib

/-!
Verification of the PyBadger badge-construction core.

This file gives a shallow embedding of the settings-merge, logo-encoding and
URL-construction model implemented in `src/pybadger/badge.py` and
`src/pybadger/shields/badge.py`, and proves or refutes the specified
properties of that code.

Conventions of the embedding:
* Python dicts become association lists `List (String × α)`; the dict union
  operator `|` becomes `dictUnion`, which keeps the left operand's key order
  and lets the right operand's value win on a colliding key, exactly as in
  Python.
* `None`-able Python values become `Option`; Python truthiness is modelled
  explicitly where the source relies on it (`x or y`, `if x:`).
* Byte strings become `List Nat` with an explicit `< 256` bound where the
  arithmetic of base64 encoding needs it.
* Fallible code returns `Except`; the I/O collaborators (HTTP fetch, file
  read) are passed in as functions, and the events actually performed are
  returned alongside the result so that absence of I/O is provable.
-/

/-! ## Association lists: the embedding of Python dicts -/

/-- First-match association-list lookup, the model of Python dict indexing. -/
def lookupA {α : Type} (k : String) : List (String × α) → Option α
  | [] => none
  | p :: rest => if p.1 = k then some p.2 else lookupA k rest

/-- Left-biased choice on `Option`, used to state lookup laws. -/
def oElse {α : Type} (x y : Option α) : Option α :=
  match x with
  | some v => some v
  | none => y

/-- The Python dict union `a | b`: keys of `a` in order with `b`'s value
winning on collision, then the keys of `b` not present in `a`. -/
def dictUnion {α : Type} (a b : List (String × α)) : List (String × α) :=
  a.map (fun p => (p.1, (lookupA p.1 b).getD p.2)) ++
    b.filter (fun p => (lookupA p.1 a).isNone)

theorem oElse_some {α : Type} (v : α) (y : Option α) : oElse (some v) y = some v := rfl

theorem oElse_none {α : Type} (y : Option α) : oElse none y = y := rfl

theorem lookupA_append {α : Type} (k : String) (xs ys : List (String × α)) :
    lookupA k (xs ++ ys) = oElse (lookupA k xs) (lookupA k ys) := by
  induction xs with
  | nil => rfl
  | cons p rest ih =>
    by_cases hk : p.1 = k
    · simp [lookupA, hk, oElse]
    · simp [lookupA, hk, ih]

theorem lookupA_map_union {α : Type} (k : String) (a b : List (String × α)) :
    lookupA k (a.map (fun p => (p.1, (lookupA p.1 b).getD p.2))) =
      (lookupA k a).map (fun v => (lookupA k b).getD v) := by
  induction a with
  | nil => rfl
  | cons p rest ih =>
    by_cases hk : p.1 = k
    · simp [lookupA, hk]
    · simp [lookupA, hk, ih]

theorem lookupA_filter_keep {α : Type} (k : String) (a b : List (String × α))
    (h : lookupA k a = none) :
    lookupA k (b.filter (fun p => (lookupA p.1 a).isNone)) = lookupA k b := by
  induction b with
  | nil => rfl
  | cons p rest ih =>
    by_cases hk : p.1 = k
    · have hnone : (lookupA p.1 a).isNone = true := by rw [hk, h]; rfl
      rw [List.filter_cons, if_pos hnone]
      simp [lookupA, hk]
    · cases hf : (lookupA p.1 a).isNone
      · simp [List.filter_cons, hf, lookupA, hk, ih]
      · simp [List.filter_cons, hf, lookupA, hk, ih]

/-- Lookup law of the Python dict union: the right operand wins where
present, the left operand's value survives elsewhere. -/
theorem lookupA_dictUnion {α : Type} (k : String) (a b : List (String × α)) :
    lookupA k (dictUnion a b) = oElse (lookupA k b) (lookupA k a) := by
  unfold dictUnion
  rw [lookupA_append, lookupA_map_union]
  cases ha : lookupA k a with
  | none =>
    rw [lookupA_filter_keep k a b ha]
    cases lookupA k b <;> simp [oElse]
  | some v =>
    cases hb : lookupA k b <;> simp [oElse, hb]

/-! ## Logo references (`ShieldsBadge._process_logo` input shapes) -/

/-- The runtime shape of the source value inside a logo reference:
a plain string (named icon or http(s) address), raw bytes, a filesystem
path, or a structured URL value. -/
inductive LogoSrc where
  | str (s : String)
  | bytes (b : List Nat)
  | path (p : String)
  | url (u : String)
deriving DecidableEq, Repr

/-- A logo reference: either a bare source value, or a 2-element tuple
`(extension_hint, source)` as accepted by `_process_logo`. -/
inductive Logo where
  | plain (src : LogoSrc)
  | pair (ext : String) (src : LogoSrc)
deriving DecidableEq, Repr

/-- Python truthiness of a logo source value: strings and byte strings are
truthy when non-empty; `Path` and URL objects define no `__bool__` and are
always truthy. -/
def LogoSrc.truthy : LogoSrc → Bool
  | .str s => s ≠ ""
  | .bytes b => !b.isEmpty
  | .path _ => true
  | .url _ => true

/-- Python truthiness of a logo reference: a 2-tuple is always truthy. -/
def Logo.truthy : Logo → Bool
  | .plain s => s.truthy
  | .pair _ _ => true

/-- The `mime_type` table of `_process_logo`, in source order. -/
def mimeType : List (String × String) :=
  [("apng", "image/apng"), ("avif", "image/avif"), ("bmp", "image/bmp"),
   ("gif", "image/gif"), ("ico", "image/x-icon"), ("jpg", "image/jpeg"),
   ("jpeg", "image/jpeg"), ("png", "image/png"), ("svg", "image/svg+xml"),
   ("tif", "image/tiff"), ("tiff", "image/tiff"), ("webp", "image/webp")]

/-- Membership test in the supported-extension table
(`extension in mime_type` in the source). -/
def supportedExt (e : String) : Bool := (lookupA e mimeType).isSome

/-- `mime_type[extension]` for a supported extension. -/
def mimeOf (e : String) : String := (lookupA e mimeType).getD ""

/-! ## Base64 (the encoding used by `base64.b64encode`) -/

/-- The base64 alphabet in index order. -/
def b64chars : List Char :=
  "ABCDEFGHIJKLMNOPQRSTUVWXYZabcdefghijklmnopqrstuvwxyz0123456789+/".data

/-- Character of a 6-bit value. -/
def b64ch (n : Nat) : Char := b64chars.getD n 'A'

/-- Index of a base64 character, `none` for characters outside the
alphabet (in particular for the padding character). -/
def b64val (c : Char) : Option Nat := b64chars.findIdx? (fun d => d = c)

/-- Standard base64 encoding of a byte sequence, including padding,
matching `base64.b64encode`. -/
def encodeB64 : List Nat → List Char
  | [] => []
  | [a] => [b64ch (a / 4), b64ch (a % 4 * 16), '=', '=']
  | [a, b] => [b64ch (a / 4), b64ch (a % 4 * 16 + b / 16), b64ch (b % 16 * 4), '=']
  | a :: b :: c :: rest =>
      b64ch (a / 4) :: b64ch (a % 4 * 16 + b / 16) ::
        b64ch (b % 16 * 4 + c / 64) :: b64ch (c % 64) :: encodeB64 rest

/-- Base64 decoding: consumes quartets of characters, accepting padding
only in a final quartet. -/
def decodeB64 : List Char → Option (List Nat)
  | [] => some []
  | c1 :: c2 :: c3 :: c4 :: rest =>
    match b64val c1, b64val c2 with
    | some v1, some v2 =>
      if c3 = '=' then
        if c4 = '=' ∧ rest = [] then some [v1 * 4 + v2 / 16] else none
      else
        match b64val c3 with
        | some v3 =>
          if c4 = '=' then
            if rest = [] then some [v1 * 4 + v2 / 16, v2 % 16 * 16 + v3 / 4] else none
          else
            match b64val c4 with
            | some v4 =>
              match decodeB64 rest with
              | some l =>
                  some ((v1 * 4 + v2 / 16) :: (v2 % 16 * 16 + v3 / 4) :: (v3 % 4 * 64 + v4) :: l)
              | none => none
            | none => none
        | none => none
    | _, _ => none
  | _ => none

theorem b64val_b64ch_fin : ∀ m : Fin 64, b64val (b64ch m.val) = some m.val := by decide

theorem b64val_b64ch (n : Nat) (h : n < 64) : b64val (b64ch n) = some n :=
  b64val_b64ch_fin ⟨n, h⟩

theorem b64ch_ne_pad (n : Nat) (h : n < 64) : b64ch n ≠ '=' := by
  intro he
  have h2 := b64val_b64ch n h
  rw [he] at h2
  have h3 : b64val '=' = none := by decide
  rw [h3] at h2
  exact Option.noConfusion h2

/-- Base64 round-trip: decoding the encoding of any byte sequence gives the
sequence back. -/
theorem decodeB64_encodeB64 :
    ∀ l : List Nat, (∀ x ∈ l, x < 256) → decodeB64 (encodeB64 l) = some l
  | [] => fun _ => rfl
  | [a] => fun h => by
      have ha : a < 256 := h a (by simp)
      have e1 : b64val (b64ch (a / 4)) = some (a / 4) := b64val_b64ch _ (by omega)
      have e2 : b64val (b64ch (a % 4 * 16)) = some (a % 4 * 16) := b64val_b64ch _ (by omega)
      simp [encodeB64, decodeB64, e1, e2]
      omega
  | [a, b] => fun h => by
      have ha : a < 256 := h a (by simp)
      have hb : b < 256 := h b (by simp)
      have e1 : b64val (b64ch (a / 4)) = some (a / 4) := b64val_b64ch _ (by omega)
      have e2 : b64val (b64ch (a % 4 * 16 + b / 16)) = some (a % 4 * 16 + b / 16) :=
        b64val_b64ch _ (by omega)
      have e3 : b64val (b64ch (b % 16 * 4)) = some (b % 16 * 4) := b64val_b64ch _ (by omega)
      have n3 : b64ch (a % 4 * 16 + b / 16) ≠ '=' := b64ch_ne_pad _ (by omega)
      have n3b : b64ch (b % 16 * 4) ≠ '=' := b64ch_ne_pad _ (by omega)
      simp [encodeB64, decodeB64, e1, e2, e3, n3, n3b]
      constructor <;> omega
  | a :: b :: c :: rest => fun h => by
      have ha : a < 256 := h a (by simp)
      have hb : b < 256 := h b (by simp)
      have hc : c < 256 := h c (by simp)
      have ih := decodeB64_encodeB64 rest (fun x hx => h x (by simp [hx]))
      have e1 : b64val (b64ch (a / 4)) = some (a / 4) := b64val_b64ch _ (by omega)
      have e2 : b64val (b64ch (a % 4 * 16 + b / 16)) = some (a % 4 * 16 + b / 16) :=
        b64val_b64ch _ (by omega)
      have e3 : b64val (b64ch (b % 16 * 4 + c / 64)) = some (b % 16 * 4 + c / 64) :=
        b64val_b64ch _ (by omega)
      have e4 : b64val (b64ch (c % 64)) = some (c % 64) := b64val_b64ch _ (by omega)
      have n3 : b64ch (b % 16 * 4 + c / 64) ≠ '=' := b64ch_ne_pad _ (by omega)
      have n4 : b64ch (c % 64) ≠ '=' := b64ch_ne_pad _ (by omega)
      simp [encodeB64, decodeB64, e1, e2, e3, e4, n3, n4, ih]
      refine ⟨by omega, by omega, by omega⟩

/-! ## The logo resolver (`ShieldsBadge._process_logo`) -/

/-- The error kinds `_process_logo` raises (all `ValueError` in the source,
distinguished here by their message / raise site). -/
inductive LogoError where
  | unsupportedFormat (ext : String)
  | missingExtension
  | unsupportedLogoType
deriving DecidableEq, Repr

/-- An I/O action performed by the resolver: an HTTP fetch of a URL or a
read of a local file. The resolver returns the list of actions it actually
performed, in order. -/
inductive ResolverEvent where
  | fetch (target : String)
  | readFile (p : String)
deriving DecidableEq, Repr

/-- The f-string of the inner `encode_logo` helper:
`data:<mime>;base64,<b64encode(content)>`. -/
def encodeLogo (content : List Nat) (mime : String) : String :=
  "data:" ++ mime ++ ";base64," ++ String.mk (encodeB64 content)

/-- Python `s.rsplit(".", 1)[-1]`: the part after the last dot, or the whole
string when it has no dot. -/
def lastSuffix (s : String) : String := ((s.splitOn ".").getLast?).getD s

/-- Python `pathlib.Path(p).suffix[1:]`: the extension of the final path
component without its dot; empty for dotless names, dotfiles and names
ending in a dot. -/
def pathSuffix (p : String) : String :=
  let name := ((p.splitOn "/").getLast?).getD p
  let parts := name.splitOn "."
  if parts.length ≤ 1 then ""
  else
    let last := (parts.getLast?).getD ""
    let first := (parts.head?).getD ""
    if last = "" then ""
    else if first = "" ∧ parts.length = 2 then ""
    else last

/-- Python `extension or fallback` where `extension` came from an optional
tuple hint: a non-empty hint short-circuits, otherwise the fallback is
evaluated. -/
def pyOrExt (e : Option String) (fallback : String) : String :=
  match e with
  | some v => if v = "" then fallback else v
  | none => fallback

/-- The dispatch of `_process_logo` on the runtime shape of the source
value, after the tuple split and upfront hint validation. `fetch` and
`readF` are the HTTP and filesystem collaborators; the returned list
records the I/O events performed. The source's final catch-all
(`UnsupportedLogoType`) is unreachable here because `LogoSrc` covers
exactly the recognized shapes. -/
def logoDispatch (fetch readF : String → List Nat) (ext0 : Option String) :
    LogoSrc → Except LogoError String × List ResolverEvent
  | .str s =>
    if s.startsWith "http://" || s.startsWith "https://" then
      let content := fetch s
      let ext := pyOrExt ext0 (lastSuffix s)
      if supportedExt ext then (.ok (encodeLogo content (mimeOf ext)), [.fetch s])
      else (.error (.unsupportedFormat ext), [.fetch s])
    else (.ok s, [])
  | .bytes b =>
    match ext0 with
    | none => (.error .missingExtension, [])
    | some e => (.ok (encodeLogo b (mimeOf e)), [])
  | .path p =>
    let content := readF p
    let ext := pyOrExt ext0 (pathSuffix p)
    if supportedExt ext then (.ok (encodeLogo content (mimeOf ext)), [.readFile p])
    else (.error (.unsupportedFormat ext), [.readFile p])
  | .url u =>
    let content := fetch u
    let ext := pyOrExt ext0 (lastSuffix u)
    if supportedExt ext then (.ok (encodeLogo content (mimeOf ext)), [.fetch u])
    else (.error (.unsupportedFormat ext), [.fetch u])

/-- `ShieldsBadge._process_logo`: an explicit extension hint from a 2-tuple
is validated against the supported set before anything else; then the
source value is dispatched on its shape. -/
def processLogo (fetch readF : String → List Nat) :
    Logo → Except LogoError String × List ResolverEvent
  | .pair e d =>
      if supportedExt e then logoDispatch fetch readF (some e) d
      else (.error (.unsupportedFormat e), [])
  | .plain d => logoDispatch fetch readF none d

/-! ## The Shields settings model (`ShieldsSettings`) -/

/-- A Python value as it appears in a settings dict or a URL query map. -/
inductive PyVal where
  | none
  | str (s : String)
  | int (n : Int)
  | bool (b : Bool)
  | logo (lg : Logo)
deriving DecidableEq, Repr

/-- The nine fields of the `ShieldsSettings` dataclass, all optional with
default `None`. -/
structure ShieldsSettings where
  style : Option String := none
  color : Option String := none
  label : Option String := none
  label_color : Option String := none
  logo : Option Logo := none
  logo_color : Option String := none
  logo_size : Option String := none
  logo_width : Option Int := none
  cache_seconds : Option Int := none
deriving DecidableEq, Repr

def toPyStr : Option String → PyVal
  | some s => .str s
  | none => .none

def toPyInt : Option Int → PyVal
  | some n => .int n
  | none => .none

def toPyLogo : Option Logo → PyVal
  | some lg => .logo lg
  | none => .none

def ofPyStr : Option PyVal → Option String
  | some (.str s) => some s
  | _ => none

def ofPyInt : Option PyVal → Option Int
  | some (.int n) => some n
  | _ => none

def ofPyLogo : Option PyVal → Option Logo
  | some (.logo lg) => some lg
  | _ => none

/-- `dataclasses.asdict(self)` (the dataclass's `__call__`): the full field
dict in declaration order, absent fields included as `None` values. -/
def ShieldsSettings.asdict (s : ShieldsSettings) : List (String × PyVal) :=
  [("style", toPyStr s.style), ("color", toPyStr s.color),
   ("label", toPyStr s.label), ("label_color", toPyStr s.label_color),
   ("logo", toPyLogo s.logo), ("logo_color", toPyStr s.logo_color),
   ("logo_size", toPyStr s.logo_size), ("logo_width", toPyInt s.logo_width),
   ("cache_seconds", toPyInt s.cache_seconds)]

/-- `ShieldsSettings(**kwargs)`: rebuild a settings object from a full
field dict. -/
def shieldsOfDict (d : List (String × PyVal)) : ShieldsSettings :=
  { style := ofPyStr (lookupA "style" d),
    color := ofPyStr (lookupA "color" d),
    label := ofPyStr (lookupA "label" d),
    label_color := ofPyStr (lookupA "label_color" d),
    logo := ofPyLogo (lookupA "logo" d),
    logo_color := ofPyStr (lookupA "logo_color" d),
    logo_size := ofPyStr (lookupA "logo_size" d),
    logo_width := ofPyInt (lookupA "logo_width" d),
    cache_seconds := ofPyInt (lookupA "cache_seconds" d) }

/-- `ShieldsSettings.__add__`: `None` returns `self` unchanged; another
settings object is combined through `ShieldsSettings(**(self() | other()))`.
(The `TypeError` branch for a non-`None`, non-settings operand is outside
this operand type.) -/
def ShieldsSettings.addFn (self : ShieldsSettings) (other : Option ShieldsSettings) :
    ShieldsSettings :=
  match other with
  | none => self
  | some o => shieldsOfDict (dictUnion self.asdict o.asdict)

/-- Python `x + y` on optional settings operands: `x.__add__(y)` when `x`
is a settings object; `None + y` falls back to `y.__radd__(None)`, which
returns `y`; `None + None` is a `TypeError`. -/
def pyAddSettings (x y : Option ShieldsSettings) : Except String ShieldsSettings :=
  match x, y with
  | some a, b => .ok (a.addFn b)
  | none, some b => .ok b
  | none, none => .error "unsupported operand type"

/-! ## The badge descriptor (`Badge` in `badge.py`) -/

/-- A markup attribute value: a string, or a boolean flag. -/
inductive AttrVal where
  | str (s : String)
  | bool (b : Bool)
deriving DecidableEq, Repr

/-- A markup attribute map. -/
abbrev AttrMap := List (String × AttrVal)

/-- Python `m or {}` on an optional dict argument: a truthy (non-empty)
dict passes through, `None` and the empty dict give a fresh empty dict. -/
def pyOrDict (m : Option AttrMap) : AttrMap :=
  match m with
  | some l => if l.isEmpty then [] else l
  | none => []

/-- Python `x or y` on strings: `x` when non-empty, else `y`. -/
def pyOrStr (x y : String) : String := if x = "" then y else x

/-- Python `x or y` where `x` is an optional string: `x`'s value when
present and non-empty, else `y`. -/
def pyOrOptStr (x y : Option String) : Option String :=
  match x with
  | some s => if s = "" then y else some s
  | none => y

/-- The badge descriptor: one light source, an optional dark source, five
attribute maps and the prefer-light flag. -/
structure Badge where
  src_light : String
  src_dark : Option String := none
  image_attributes : AttrMap := []
  anchor_attributes : AttrMap := []
  picture_attributes : AttrMap := []
  src_light_attributes : AttrMap := []
  src_dark_attributes : AttrMap := []
  default_img_light : Bool := true
deriving DecidableEq, Repr

/-- `Badge.__init__`: every attribute-map argument is defaulted with
`arg or {}`. -/
def mkBadge (src_light : String) (src_dark : Option String)
    (ia aa pa sla sda : Option AttrMap) (dl : Bool) : Badge :=
  { src_light := src_light, src_dark := src_dark,
    image_attributes := pyOrDict ia, anchor_attributes := pyOrDict aa,
    picture_attributes := pyOrDict pa, src_light_attributes := pyOrDict sla,
    src_dark_attributes := pyOrDict sda, default_img_light := dl }

/-- `Badge.__add__`: `None` returns `self`; with another badge, source URLs
are `other.src or self.src`, all five attribute maps are
`self.attrs | other.attrs`, and the flag is
`self.default_img_light or other.default_img_light`. (A non-`None`
non-badge operand raises `TypeError`, outside this operand type.) -/
def Badge.addFn (self : Badge) (other : Option Badge) : Badge :=
  match other with
  | none => self
  | some o =>
    { src_light := pyOrStr o.src_light self.src_light,
      src_dark := pyOrOptStr o.src_dark self.src_dark,
      image_attributes := dictUnion self.image_attributes o.image_attributes,
      anchor_attributes := dictUnion self.anchor_attributes o.anchor_attributes,
      picture_attributes := dictUnion self.picture_attributes o.picture_attributes,
      src_light_attributes := dictUnion self.src_light_attributes o.src_light_attributes,
      src_dark_attributes := dictUnion self.src_dark_attributes o.src_dark_attributes,
      default_img_light := self.default_img_light || o.default_img_light }

/-- The result of `Badge.img`: the chosen image source, the image
attributes used, and the anchor attributes when the image is wrapped in an
anchor element. -/
structure ImgRender where
  src : String
  img_attributes : AttrMap
  anchor : Option AttrMap
deriving DecidableEq, Repr

/-- `Badge.img`: a dict override replaces the stored attribute map; the
effective light flag is the per-call `light` when given, else the stored
flag; the source is `src_light` when the flag is set, otherwise
`src_dark if src_dark else src_light`; the anchor wraps the image only when
the effective anchor attributes are truthy (non-empty). -/
def Badge.imgFn (self : Badge) (image_attributes anchor_attributes : Option AttrMap)
    (light : Option Bool) : ImgRender :=
  let ia := match image_attributes with
    | some m => m
    | none => self.image_attributes
  let dl := match light with
    | some b => b
    | none => self.default_img_light
  let src := if dl then self.src_light
    else match self.src_dark with
      | some d => if d = "" then self.src_light else d
      | none => self.src_light
  let aa := match anchor_attributes with
    | some m => m
    | none => self.anchor_attributes
  { src := src, img_attributes := ia,
    anchor := if aa.isEmpty then none else some aa }

/-! ## The badge object's attribute slots (`Badge.__init__` / `set` / `__add__`)

To state the invariant that the five attribute maps are always defined,
this view models each map attribute as an `Option AttrMap` slot — the value
domain Python's annotation `dict | None` admits — and the three operations
that produce or mutate badges as functions on such states. -/

/-- A badge object with its attribute-map slots possibly undefined. -/
structure BadgeState where
  src_light : String
  src_dark : Option String
  image_attributes : Option AttrMap
  anchor_attributes : Option AttrMap
  picture_attributes : Option AttrMap
  src_light_attributes : Option AttrMap
  src_dark_attributes : Option AttrMap
  default_img_light : Bool

/-- `Badge.__init__` as a state constructor: each map slot is set to
`arg or {}`, hence always defined. -/
def initState (sl : String) (sd : Option String)
    (ia aa pa sla sda : Option AttrMap) (dl : Bool) : BadgeState :=
  { src_light := sl, src_dark := sd,
    image_attributes := some (pyOrDict ia),
    anchor_attributes := some (pyOrDict aa),
    picture_attributes := some (pyOrDict pa),
    src_light_attributes := some (pyOrDict sla),
    src_dark_attributes := some (pyOrDict sda),
    default_img_light := dl }

/-- One slot update of `Badge.set`: a `None` argument leaves the slot
untouched; a given map is merged into the current one with
`setattr(self, attr, getattr(self, attr) | value)`. -/
def setSlot (cur : Option AttrMap) (arg : Option AttrMap) : Option AttrMap :=
  match arg with
  | none => cur
  | some v => cur.map (fun m => dictUnion m v)

/-- `Badge.set`: merge each given attribute map into its slot; the boolean
flag is replaced outright when given. -/
def setState (b : BadgeState) (ia aa pa sla sda : Option AttrMap)
    (dl : Option Bool) : BadgeState :=
  { b with
    image_attributes := setSlot b.image_attributes ia,
    anchor_attributes := setSlot b.anchor_attributes aa,
    picture_attributes := setSlot b.picture_attributes pa,
    src_light_attributes := setSlot b.src_light_attributes sla,
    src_dark_attributes := setSlot b.src_dark_attributes sda,
    default_img_light := match dl with
      | some v => v
      | none => b.default_img_light }

/-- The map union of `Badge.__add__` at the slot level: defined exactly
when both operand slots are. -/
def addSlot (x y : Option AttrMap) : Option AttrMap :=
  match x, y with
  | some m1, some m2 => some (dictUnion m1 m2)
  | _, _ => none

/-- `Badge.__add__` on states. -/
def addState (self other : BadgeState) : BadgeState :=
  { src_light := pyOrStr other.src_light self.src_light,
    src_dark := pyOrOptStr other.src_dark self.src_dark,
    image_attributes := addSlot self.image_attributes other.image_attributes,
    anchor_attributes := addSlot self.anchor_attributes other.anchor_attributes,
    picture_attributes := addSlot self.picture_attributes other.picture_attributes,
    src_light_attributes := addSlot self.src_light_attributes other.src_light_attributes,
    src_dark_attributes := addSlot self.src_dark_attributes other.src_dark_attributes,
    default_img_light := self.default_img_light || other.default_img_light }

/-- Badge states reachable through the operations of the class:
construction, `set`, and addition of two reachable badges (`+ None`
returns the left state itself and needs no rule). -/
inductive ReachableBadge : BadgeState → Prop where
  | init : ∀ sl sd ia aa pa sla sda dl,
      ReachableBadge (initState sl sd ia aa pa sla sda dl)
  | set : ∀ b ia aa pa sla sda dl, ReachableBadge b →
      ReachableBadge (setState b ia aa pa sla sda dl)
  | add : ∀ a b, ReachableBadge a → ReachableBadge b →
      ReachableBadge (addState a b)

theorem setSlot_isSome (cur arg : Option AttrMap) :
    (setSlot cur arg).isSome = cur.isSome := by
  cases arg <;> cases cur <;> rfl

theorem addSlot_isSome (x y : Option AttrMap) (hx : x.isSome = true)
    (hy : y.isSome = true) : (addSlot x y).isSome = true := by
  cases x <;> cases y <;> simp_all [addSlot]

/-! ## The URL builder (`create` in `shields/badge.py`) -/

/-- A URL as the builder manipulates it: the base-plus-path part and an
insertion-ordered query map. -/
structure UrlModel where
  path : String
  queries : List (String × PyVal)
deriving DecidableEq, Repr

/-- `url.queries[key] = val`: overwrite the value at an existing key in
place, else append the pair. -/
def qset (m : List (String × PyVal)) (k : String) (v : PyVal) :
    List (String × PyVal) :=
  match m with
  | [] => [(k, v)]
  | p :: rest => if p.1 = k then (p.1, v) :: rest else p :: qset rest k v

/-- The query-insertion loops of `create`:
`for key, val in ...: if val is not None: url.queries[key] = val`. -/
def addQueries (u : UrlModel) (pairs : List (String × PyVal)) : UrlModel :=
  pairs.foldl
    (fun acc kv =>
      if kv.2 = PyVal.none then acc
      else { acc with queries := qset acc.queries kv.1 kv.2 }) u

/-- Modelled from the spec: the settings object consumed by `create`. The
source's `create` reads the four dark-variant fields `color_dark`,
`label_color_dark`, `logo_dark` and `logo_color_dark`, which the
`ShieldsSettings` dataclass in the source does not declare; per the spec's
data model the settings carry a dark variant of color, label_color, logo
and logo_color under a `_dark` field-name suffix, alongside the nine
declared fields. -/
structure ShieldsSettingsX where
  style : Option String := none
  color : Option String := none
  label : Option String := none
  label_color : Option String := none
  logo : Option Logo := none
  logo_color : Option String := none
  logo_size : Option String := none
  logo_width : Option Int := none
  cache_seconds : Option Int := none
  color_dark : Option String := none
  label_color_dark : Option String := none
  logo_dark : Option Logo := none
  logo_color_dark : Option String := none
deriving DecidableEq, Repr

/-- Python truthiness of an optional string field. -/
def truthyOptStr : Option String → Bool
  | some s => s ≠ ""
  | none => false

/-- Python truthiness of an optional logo field. -/
def truthyOptLogo : Option Logo → Bool
  | some lg => lg.truthy
  | none => false

/-- `_process_logo(x) if x else None` on an optional logo field, with the
resolver's error propagating. -/
def processOptLogo (fetch readF : String → List Nat) :
    Option Logo → Except LogoError (Option String)
  | some lg =>
      if lg.truthy then
        match (processLogo fetch readF lg).1 with
        | .ok s => .ok (some s)
        | .error e => .error e
      else .ok none
  | none => .ok none

/-- The result of `create`: the light URL and, for a themed badge, the
dark URL. -/
structure CreateResult where
  url_light : UrlModel
  url_dark : Option UrlModel
deriving DecidableEq, Repr

/-- The `create` function of `shields/badge.py`: build the base URL from
`https://img.shields.io` and the path; attach the common queries (the
style/logoSize/logoWidth/label/cacheSeconds dict unioned with the explicit
`queries` argument, right operand winning); copy that URL as the dark base;
resolve the light logo; attach the light-specific color/labelColor/logo/
logoColor queries; if no dark field is truthy, return a light-only result;
otherwise attach the dark overlays (the dark logo resolved independently
when truthy, else reusing the light resolution) and return both URLs. -/
def create (fetch readF : String → List Nat) (path : String)
    (queries : Option (List (String × PyVal))) (s : ShieldsSettingsX) :
    Except LogoError CreateResult :=
  let base : UrlModel := { path := "https://img.shields.io/" ++ path, queries := [] }
  let common := dictUnion
    [("style", toPyStr s.style), ("logoSize", toPyStr s.logo_size),
     ("logoWidth", toPyInt s.logo_width), ("label", toPyStr s.label),
     ("cacheSeconds", toPyInt s.cache_seconds)]
    (queries.getD [])
  let u1 := addQueries base common
  match processOptLogo fetch readF s.logo with
  | .error e => .error e
  | .ok logoLight =>
    let u2 := addQueries u1
      [("color", toPyStr s.color), ("labelColor", toPyStr s.label_color),
       ("logo", toPyStr logoLight), ("logoColor", toPyStr s.logo_color)]
    if !(truthyOptLogo s.logo_dark || truthyOptStr s.logo_color_dark ||
         truthyOptStr s.color_dark || truthyOptStr s.label_color_dark) then
      .ok { url_light := u2, url_dark := none }
    else
      match
        (if truthyOptLogo s.logo_dark then processOptLogo fetch readF s.logo_dark
         else .ok logoLight) with
      | .error e => .error e
      | .ok logoDark =>
        .ok { url_light := u2,
              url_dark := some (addQueries u1
                [("color", toPyStr s.color_dark),
                 ("labelColor", toPyStr s.label_color_dark),
                 ("logo", toPyStr logoDark),
                 ("logoColor", toPyStr s.logo_color_dark)]) }

/-! ## Theorems: settings combination -/

theorem ofPyStr_toPyStr (x : Option String) : ofPyStr (some (toPyStr x)) = x := by
  cases x <;> rfl

theorem ofPyInt_toPyInt (x : Option Int) : ofPyInt (some (toPyInt x)) = x := by
  cases x <;> rfl

theorem ofPyLogo_toPyLogo (x : Option Logo) : ofPyLogo (some (toPyLogo x)) = x := by
  cases x <;> rfl

/-- Because `asdict` lists every field (absent ones as `None` values), the
dict union in `__add__` takes the right operand's value at every key: the
sum of two settings objects is just the right operand. -/
theorem shieldsAdd_right_absorbs (a b : ShieldsSettings) : a.addFn (some b) = b := by
  show shieldsOfDict (dictUnion a.asdict b.asdict) = b
  simp [shieldsOfDict, dictUnion, ShieldsSettings.asdict, lookupA,
    ofPyStr_toPyStr, ofPyInt_toPyInt, ofPyLogo_toPyLogo]

/-- C1: the claim that settings combination is right-biased only on present
fields and drops no field fails on the code: adding an all-absent settings
object on the right erases the left operand's present `color`. The code
unions the full `asdict` outputs, in which absent fields appear as `None`
values that overwrite the left operand's. -/
theorem shields_add_drops_present_field :
    (({ color := some "red" } : ShieldsSettings).addFn
        (some ({} : ShieldsSettings))).color = none ∧
    ({ color := some "red" } : ShieldsSettings).color = some "red" := by
  constructor
  · rw [shieldsAdd_right_absorbs]
  · rfl

/-- C7: combining with an absent operand on either side returns the other
operand unchanged: `A + None = A` through `__add__`'s `None` guard, and
`None + B = B` through `__radd__`. -/
theorem settings_add_identity (a b : ShieldsSettings) :
    pyAddSettings (some a) none = Except.ok a ∧
    pyAddSettings none (some b) = Except.ok b :=
  ⟨rfl, rfl⟩

/-! ## Theorems: the logo resolver -/

/-- C4: resolving a `(extension, bytes)` pair with a supported extension
yields exactly `data:<mime(e)>;base64,<base64(b)>` without I/O, and
base64-decoding the payload reproduces the bytes. -/
theorem logo_bytes_data_uri_roundtrip (fetch readF : String → List Nat)
    (e : String) (b : List Nat) (he : supportedExt e = true)
    (hb : ∀ x ∈ b, x < 256) :
    processLogo fetch readF (Logo.pair e (LogoSrc.bytes b)) =
      (Except.ok ("data:" ++ mimeOf e ++ ";base64," ++ String.mk (encodeB64 b)), []) ∧
    decodeB64 (encodeB64 b) = some b := by
  constructor
  · simp [processLogo, he, logoDispatch, encodeLogo]
  · exact decodeB64_encodeB64 b hb

theorem logo_bytes_data_uri_roundtrip_witness :
    processLogo (fun _ => []) (fun _ => [])
        (Logo.pair "png" (LogoSrc.bytes [137, 80, 78, 71])) =
      (Except.ok "data:image/png;base64,iVBORw==", []) ∧
    decodeB64 (encodeB64 [137, 80, 78, 71]) = some [137, 80, 78, 71] := by
  have h := logo_bytes_data_uri_roundtrip (fun _ => []) (fun _ => [])
    "png" [137, 80, 78, 71] (by decide) (by decide)
  exact ⟨h.1.trans (by rfl), h.2⟩

/-- C5: a pair whose explicit extension hint is unsupported fails with
`UnsupportedFormat` before any dispatch, performing no fetch or file read,
for every source shape and every collaborator. -/
theorem logo_unsupported_ext_no_io (fetch readF : String → List Nat)
    (e : String) (d : LogoSrc) (h : supportedExt e = false) :
    processLogo fetch readF (Logo.pair e d) =
      (Except.error (LogoError.unsupportedFormat e), []) := by
  simp [processLogo, h]

theorem logo_unsupported_ext_no_io_witness :
    processLogo (fun _ => []) (fun _ => [])
        (Logo.pair "xyz" (LogoSrc.bytes [1, 2, 3])) =
      (Except.error (LogoError.unsupportedFormat "xyz"), []) :=
  logo_unsupported_ext_no_io (fun _ => []) (fun _ => []) "xyz"
    (LogoSrc.bytes [1, 2, 3]) (by decide)

/-- C8: raw bytes without an explicit extension hint fail with
`MissingExtension`: no result string is produced and no I/O or encoding is
performed. -/
theorem logo_bytes_missing_extension (fetch readF : String → List Nat)
    (b : List Nat) :
    processLogo fetch readF (Logo.plain (LogoSrc.bytes b)) =
      (Except.error LogoError.missingExtension, []) :=
  rfl

/-! ## Theorems: the badge descriptor -/

/-- C2 counterexample: with both operands' light URLs non-absent, the sum
takes the RIGHT operand's URL (`other.src_light or self.src_light`), not
the left one's as claimed. -/
theorem badge_add_takes_right_url_cex :
    ((mkBadge "https://a.test/badge" none none none none none none true).addFn
        (some (mkBadge "https://b.test/badge" none none none none none none true))).src_light
      ≠ "https://a.test/badge" ∧
    ((mkBadge "https://a.test/badge" none none none none none none true).addFn
        (some (mkBadge "https://b.test/badge" none none none none none none true))).src_light
      = "https://b.test/badge" := by
  constructor
  · decide
  · rfl

/-- C2 (amended): in a badge sum the result's light URL is the right
operand's whenever the right one's is truthy (non-empty) and the left
operand's otherwise; the dark URL likewise prefers the right operand's
present non-empty value; the prefer-light flag is the OR of the two
flags. -/
theorem badge_add_url_and_flag (a b : Badge) :
    (b.src_light ≠ "" → (a.addFn (some b)).src_light = b.src_light) ∧
    (b.src_light = "" → (a.addFn (some b)).src_light = a.src_light) ∧
    (∀ d : String, b.src_dark = some d → d ≠ "" →
      (a.addFn (some b)).src_dark = some d) ∧
    ((b.src_dark = none ∨ b.src_dark = some "") →
      (a.addFn (some b)).src_dark = a.src_dark) ∧
    (a.addFn (some b)).default_img_light = (a.default_img_light || b.default_img_light) := by
  refine ⟨?_, ?_, ?_, ?_, rfl⟩
  · intro h
    show pyOrStr b.src_light a.src_light = b.src_light
    simp [pyOrStr, h]
  · intro h
    show pyOrStr b.src_light a.src_light = a.src_light
    simp [pyOrStr, h]
  · intro d hd hne
    show pyOrOptStr b.src_dark a.src_dark = some d
    simp [pyOrOptStr, hd, hne]
  · intro h
    show pyOrOptStr b.src_dark a.src_dark = a.src_dark
    rcases h with h | h <;> simp [pyOrOptStr, h]

theorem badge_add_url_and_flag_witness :
    ((mkBadge "https://a.test/l" (some "https://a.test/d")
        none none none none none false).addFn
      (some (mkBadge "https://b.test/l" (some "https://b.test/d")
        none none none none none true))).src_light = "https://b.test/l" ∧
    ((mkBadge "https://a.test/l" (some "https://a.test/d")
        none none none none none false).addFn
      (some (mkBadge "https://b.test/l" (some "https://b.test/d")
        none none none none none true))).src_dark = some "https://b.test/d" := by
  have h := badge_add_url_and_flag
    (mkBadge "https://a.test/l" (some "https://a.test/d") none none none none none false)
    (mkBadge "https://b.test/l" (some "https://b.test/d") none none none none none true)
  exact ⟨h.1 (by decide), h.2.2.1 "https://b.test/d" rfl (by decide)⟩

/-- C6: for each of the five attribute maps, the sum's map is the key-wise
union of the operands' maps with the right operand winning on every
colliding key; adding `None` returns the left operand unchanged. -/
theorem badge_add_attr_union (a b : Badge) :
    (∀ k, lookupA k ((a.addFn (some b)).image_attributes) =
      oElse (lookupA k b.image_attributes) (lookupA k a.image_attributes)) ∧
    (∀ k, lookupA k ((a.addFn (some b)).anchor_attributes) =
      oElse (lookupA k b.anchor_attributes) (lookupA k a.anchor_attributes)) ∧
    (∀ k, lookupA k ((a.addFn (some b)).picture_attributes) =
      oElse (lookupA k b.picture_attributes) (lookupA k a.picture_attributes)) ∧
    (∀ k, lookupA k ((a.addFn (some b)).src_light_attributes) =
      oElse (lookupA k b.src_light_attributes) (lookupA k a.src_light_attributes)) ∧
    (∀ k, lookupA k ((a.addFn (some b)).src_dark_attributes) =
      oElse (lookupA k b.src_dark_attributes) (lookupA k a.src_dark_attributes)) ∧
    a.addFn none = a :=
  ⟨fun k => lookupA_dictUnion k _ _, fun k => lookupA_dictUnion k _ _,
   fun k => lookupA_dictUnion k _ _, fun k => lookupA_dictUnion k _ _,
   fun k => lookupA_dictUnion k _ _, rfl⟩

/-- C9: when a badge's dark URL is absent, `img` uses the light URL as the
source for every per-call attribute override and every value of the
light/dark selection, stored or per-call. -/
theorem img_light_only_src (b : Badge) (ia aa : Option AttrMap)
    (l : Option Bool) (h : b.src_dark = none) :
    (b.imgFn ia aa l).src = b.src_light := by
  simp [Badge.imgFn, h]

theorem img_light_only_src_witness :
    ((mkBadge "https://img.shields.io/x" none none none none none none true).imgFn
        none none (some false)).src = "https://img.shields.io/x" :=
  img_light_only_src (mkBadge "https://img.shields.io/x" none none none none none none true)
    none none (some false) rfl

/-- C10: every badge state reachable through construction, `set` and
addition has all five attribute maps defined: construction replaces an
absent argument with an empty map, `set` merges into the existing maps,
and addition unions the operands' maps. -/
theorem badge_maps_always_defined (b : BadgeState) (h : ReachableBadge b) :
    b.image_attributes.isSome = true ∧ b.anchor_attributes.isSome = true ∧
    b.picture_attributes.isSome = true ∧ b.src_light_attributes.isSome = true ∧
    b.src_dark_attributes.isSome = true := by
  induction h with
  | init sl sd ia aa pa sla sda dl => exact ⟨rfl, rfl, rfl, rfl, rfl⟩
  | set b ia aa pa sla sda dl hb ih =>
    obtain ⟨i1, i2, i3, i4, i5⟩ := ih
    refine ⟨?_, ?_, ?_, ?_, ?_⟩ <;>
      simp [setState, setSlot_isSome, i1, i2, i3, i4, i5]
  | add a b ha hb iha ihb =>
    obtain ⟨i1, i2, i3, i4, i5⟩ := iha
    obtain ⟨j1, j2, j3, j4, j5⟩ := ihb
    exact ⟨addSlot_isSome _ _ i1 j1, addSlot_isSome _ _ i2 j2,
      addSlot_isSome _ _ i3 j3, addSlot_isSome _ _ i4 j4,
      addSlot_isSome _ _ i5 j5⟩

theorem badge_maps_always_defined_witness :
    (initState "u" none none none none none none true).image_attributes.isSome = true ∧
    (initState "u" none none none none none none true).anchor_attributes.isSome = true ∧
    (initState "u" none none none none none none true).picture_attributes.isSome = true ∧
    (initState "u" none none none none none none true).src_light_attributes.isSome = true ∧
    (initState "u" none none none none none none true).src_dark_attributes.isSome = true :=
  badge_maps_always_defined _ (ReachableBadge.init "u" none none none none none none true)

/-! ## Theorems: the URL builder's dark URL -/

/-- C3 counterexample: a settings object whose `color_dark` is present but
empty has a dark-overlay field present, yet the builder — which tests the
four dark fields for Python truthiness, not presence — returns an absent
dark URL. -/
theorem create_dark_absent_cex :
    create (fun _ => []) (fun _ => []) "static/v1" none { color_dark := some "" } =
      Except.ok
        { url_light := { path := "https://img.shields.io/static/v1", queries := [] },
          url_dark := none } ∧
    ({ color_dark := some "" } : ShieldsSettingsX).color_dark ≠ none := by
  constructor
  · rfl
  · decide

/-- C3 (amended): for every successful call to the builder, the dark URL
is absent if and only if none of the four dark-overlay fields
(`color_dark`, `label_color_dark`, `logo_dark`, `logo_color_dark`) is
truthy — present with a non-empty value — in the settings passed in. -/
theorem create_dark_url_presence (fetch readF : String → List Nat)
    (path : String) (queries : Option (List (String × PyVal)))
    (s : ShieldsSettingsX) (r : CreateResult)
    (h : create fetch readF path queries s = Except.ok r) :
    r.url_dark = none ↔
      (truthyOptLogo s.logo_dark || truthyOptStr s.logo_color_dark ||
       truthyOptStr s.color_dark || truthyOptStr s.label_color_dark) = false := by
  unfold create at h
  split at h
  · exact absurd h (by simp)
  · split at h
    · rename_i hc
      injection h with h2
      subst h2
      simp only [Bool.not_eq_eq_eq_not, Bool.not_true] at hc
      simp [hc]
    · rename_i hc
      split at h
      · exact absurd h (by simp)
      · injection h with h2
        subst h2
        simp only [Bool.not_eq_eq_eq_not, Bool.not_true, Bool.not_eq_false] at hc
        simp [hc]

theorem create_dark_url_presence_witness :
    ¬ (({ url_light := { path := "https://img.shields.io/p", queries := [] },
          url_dark := some { path := "https://img.shields.io/p",
                             queries := [("color", PyVal.str "gray")] } } :
        CreateResult).url_dark = none) := by
  intro hn
  have h := (create_dark_url_presence (fun _ => []) (fun _ => []) "p" none
      { color_dark := some "gray" } _ rfl).mp hn
  exact absurd h (by decide)
